import Mathlib

/-!
Shallow embedding of the bookstore order-placement workflow.

Sources embedded here:
- the MySQL schema and the stored procedure PlaceOrder from
  src/db/Sample_Quries.sql (tables Books, Customers, Orders, OrderDetails,
  Payments, OrderLog; the procedure's statement sequence at lines 225-268);
- the Express handlers POST /api/orders and PUT /api/orders/:id/status from
  src/unnamed/part_000 (lines 862-895 and 919-934), the MySQL variant of the
  server that calls the PlaceOrder procedure once per request item.

Modelling conventions: DECIMAL(10,2) money amounts are integers in cents;
SQL identifiers are Int (the handlers call parseInt on request fields);
JavaScript falsy checks on possibly-missing JSON fields are modelled with
Option (none = absent, and 0 or the empty string are also falsy);
each SQL statement is a function on an explicit database state that may
fail with a SqlErr, and START TRANSACTION / COMMIT is modelled by
discarding the staged state when any statement fails before the commit.
-/

namespace BookStore

/-- A row of Books: BookID, Price (DECIMAL(10,2) as cents, CHECK Price >= 0),
Stock (CHECK Stock >= 0). Columns not touched by the order workflow
(Title, AuthorID, ...) are omitted. -/
structure Book where
  bookID : Int
  price : Int
  stock : Int
deriving Repr, DecidableEq

/-- A row of Orders: OrderID, CustomerID (FK), Status (DEFAULT 'Pending'). -/
structure Order where
  orderID : Int
  customerID : Int
  status : String
deriving Repr, DecidableEq

/-- A row of OrderDetails: OrderDetailID, OrderID (FK), BookID (FK),
Quantity (CHECK Quantity > 0). -/
structure OrderDetail where
  orderDetailID : Int
  orderID : Int
  bookID : Int
  quantity : Int
deriving Repr, DecidableEq

/-- A row of Payments: PaymentID, OrderID (FK), PaymentMethod
(CHECK in the five allowed methods), Amount (CHECK Amount >= 0). -/
structure Payment where
  paymentID : Int
  orderID : Int
  paymentMethod : String
  amount : Int
deriving Repr, DecidableEq

/-- A row of OrderLog: LogID, OrderID (FK), PaymentMethod. -/
structure LogEntry where
  logID : Int
  orderID : Int
  paymentMethod : String
deriving Repr, DecidableEq

/-- The database state: the rows of each table the workflow touches, plus
the AUTO_INCREMENT counters. Customers are represented by their IDs only;
the workflow never reads other customer columns. -/
structure DB where
  customers : List Int
  books : List Book
  orders : List Order
  orderDetails : List OrderDetail
  payments : List Payment
  orderLog : List LogEntry
  nextOrderID : Int
  nextOrderDetailID : Int
  nextPaymentID : Int
  nextLogID : Int
deriving Repr, DecidableEq

/-- MySQL errors the embedded statements can raise. -/
inductive SqlErr where
  | noReferencedRow (constraintName : String)
  | checkViolation (constraintName : String)
  | noData
deriving Repr, DecidableEq

/-- The driver-level error code string, as mysql2 exposes it in err.code. -/
def SqlErr.code : SqlErr → String
  | noReferencedRow _ => "ER_NO_REFERENCED_ROW_2"
  | checkViolation _ => "ER_CHECK_CONSTRAINT_VIOLATED"
  | noData => "ER_SP_FETCH_NO_DATA"

/-- The driver-level error message, as mysql2 exposes it in err.message. -/
def SqlErr.message : SqlErr → String
  | noReferencedRow c =>
      "Cannot add or update a child row: a foreign key constraint fails (" ++ c ++ ")"
  | checkViolation c => "Check constraint " ++ c ++ " is violated."
  | noData => "No data - zero rows fetched, selected, or processed"

/-- The CHECK list on Payments.PaymentMethod in the schema
(Sample_Quries.sql line 83). -/
def allowedMethods : List String := ["SadaPay", "EasyPaisa", "JazzCash", "Card", "Cash"]

/-- INSERT INTO Orders (CustomerID) VALUES (p_CustomerID): Status takes its
DEFAULT 'Pending', OrderID the AUTO_INCREMENT value; fails when the
CustomerID foreign key has no parent row. Returns LAST_INSERT_ID() too. -/
def insertOrder (db : DB) (c : Int) : Except SqlErr (DB × Int) :=
  if db.customers.contains c then
    Except.ok ({ db with
        orders := db.orders ++ [{ orderID := db.nextOrderID, customerID := c, status := "Pending" }],
        nextOrderID := db.nextOrderID + 1 }, db.nextOrderID)
  else Except.error (SqlErr.noReferencedRow "orders_ibfk_1")

/-- INSERT INTO OrderDetails (OrderID, BookID, Quantity): fails on a missing
OrderID or BookID parent or on the CHECK (Quantity > 0). -/
def insertOrderDetail (db : DB) (oid b q : Int) : Except SqlErr DB :=
  if !(db.orders.any (fun o => o.orderID == oid)) then
    Except.error (SqlErr.noReferencedRow "orderdetails_ibfk_1")
  else if !(db.books.any (fun bk => bk.bookID == b)) then
    Except.error (SqlErr.noReferencedRow "orderdetails_ibfk_2")
  else if q ≤ 0 then
    Except.error (SqlErr.checkViolation "orderdetails_chk_1")
  else
    Except.ok { db with
        orderDetails := db.orderDetails ++
          [{ orderDetailID := db.nextOrderDetailID, orderID := oid, bookID := b, quantity := q }],
        nextOrderDetailID := db.nextOrderDetailID + 1 }

/-- The per-row effect of UPDATE Books SET Stock = Stock - q
WHERE BookID = b AND Stock >= q. -/
def applyStock (b q : Int) (bk : Book) : Book :=
  if bk.bookID == b && decide (bk.stock ≥ q) then { bk with stock := bk.stock - q } else bk

/-- UPDATE Books SET Stock = Stock - p_Quantity WHERE BookID = p_BookID AND
Stock >= p_Quantity. The statement cannot fail; when no row matches the
WHERE clause it affects zero rows and the state is unchanged — the
procedure does not inspect the affected-row count. -/
def updateStock (db : DB) (b q : Int) : DB :=
  { db with books := db.books.map (applyStock b q) }

/-- SELECT Price INTO v_BookPrice FROM Books WHERE BookID = p_BookID.
The no-row case is unreachable in the procedure because the OrderDetails
insert has already enforced the BookID foreign key. -/
def selectPrice (db : DB) (b : Int) : Except SqlErr Int :=
  match db.books.find? (fun bk => bk.bookID == b) with
  | some bk => Except.ok bk.price
  | none => Except.error SqlErr.noData

/-- INSERT INTO Payments (OrderID, PaymentMethod, Amount): fails on a missing
OrderID parent, on the PaymentMethod CHECK, or on CHECK (Amount >= 0). -/
def insertPayment (db : DB) (oid : Int) (m : String) (amt : Int) : Except SqlErr DB :=
  if !(db.orders.any (fun o => o.orderID == oid)) then
    Except.error (SqlErr.noReferencedRow "payments_ibfk_1")
  else if !(allowedMethods.contains m) then
    Except.error (SqlErr.checkViolation "payments_chk_1")
  else if amt < 0 then
    Except.error (SqlErr.checkViolation "payments_chk_2")
  else
    Except.ok { db with
        payments := db.payments ++
          [{ paymentID := db.nextPaymentID, orderID := oid, paymentMethod := m, amount := amt }],
        nextPaymentID := db.nextPaymentID + 1 }

/-- INSERT INTO OrderLog (OrderID, PaymentMethod): fails on a missing
OrderID parent (the column is nullable but the procedure passes a value). -/
def insertOrderLog (db : DB) (oid : Int) (m : String) : Except SqlErr DB :=
  if !(db.orders.any (fun o => o.orderID == oid)) then
    Except.error (SqlErr.noReferencedRow "orderlog_ibfk_1")
  else
    Except.ok { db with
        orderLog := db.orderLog ++ [{ logID := db.nextLogID, orderID := oid, paymentMethod := m }],
        nextLogID := db.nextLogID + 1 }

/-- The statement sequence of the stored procedure PlaceOrder
(Sample_Quries.sql lines 225-268), run against the staged transaction
state: create the order, insert its line item, conditionally decrement
stock (without checking the affected-row count), read the price, compute
v_TotalAmount = Price * Quantity, record the payment and the log entry.
Returns the staged state plus the procedure's result set
(OrderID, TotalAmount). -/
def placeOrderTx (db : DB) (c b q : Int) (m : String) : Except SqlErr (DB × Int × Int) :=
  match insertOrder db c with
  | Except.error e => Except.error e
  | Except.ok (db1, oid) =>
    match insertOrderDetail db1 oid b q with
    | Except.error e => Except.error e
    | Except.ok db2 =>
      let db3 := updateStock db2 b q
      match selectPrice db3 b with
      | Except.error e => Except.error e
      | Except.ok price =>
        match insertPayment db3 oid m (price * q) with
        | Except.error e => Except.error e
        | Except.ok db4 =>
          match insertOrderLog db4 oid m with
          | Except.error e => Except.error e
          | Except.ok db5 => Except.ok (db5, oid, price * q)

/-- CALL PlaceOrder(...) with transaction semantics: the staged state is
committed only when every statement succeeded; an error before COMMIT
leaves the committed database unchanged. -/
def placeOrderCommitted (db : DB) (c b q : Int) (m : String) :
    DB × Except SqlErr (Int × Int) :=
  match placeOrderTx db c b q m with
  | Except.ok (db1, oid, total) => (db1, Except.ok (oid, total))
  | Except.error e => (db, Except.error e)

/-! ## The Express handlers (src/unnamed/part_000) -/

/-- A JSON value appearing in a response body. -/
inductive Json where
  | str (s : String)
  | num (n : Int)
deriving Repr, DecidableEq

/-- A JSON object sent with res.json, as a list of key/value fields. -/
abbrev Body := List (String × Json)

/-- An HTTP response: status code and JSON body. -/
structure HResp where
  status : Nat
  body : Body
deriving Repr, DecidableEq

/-- One element of the request's items array; fields may be absent. -/
structure ReqItem where
  bookId : Option Int
  quantity : Option Int
deriving Repr, DecidableEq

/-- The POST /api/orders request body; fields may be absent, and a
non-array items field is modelled as absent (the handler treats both
with the same 400). -/
structure OrderReq where
  customerId : Option Int
  items : Option (List ReqItem)
  paymentMethod : Option String
deriving Repr, DecidableEq

/-- JavaScript truthiness of a possibly-absent number: absent and 0 are falsy. -/
def truthyInt : Option Int → Bool
  | none => false
  | some n => n != 0

/-- JavaScript truthiness of a possibly-absent string: absent and "" are falsy. -/
def truthyStr : Option String → Bool
  | none => false
  | some s => s != ""

/-- The handler's validPaymentMethods array (part_000 line 870). -/
def validPaymentMethods : List String := ["Cash", "Card", "JazzCash", "EasyPaisa", "SadaPay"]

/-- The per-item validation at part_000 lines 875-879:
!item.bookId || !item.quantity || item.quantity <= 0. -/
def itemInvalid (it : ReqItem) : Bool :=
  !(truthyInt it.bookId) || !(truthyInt it.quantity) || decide (it.quantity.getD 0 ≤ 0)

/-- The first validation at part_000 lines 866-868:
!customerId || !items || !Array.isArray(items) || items.length === 0 ||
!paymentMethod. -/
def requiredMissing (req : OrderReq) : Bool :=
  !(truthyInt req.customerId) || req.items.isNone ||
    (req.items.getD []).isEmpty || !(truthyStr req.paymentMethod)

/-- JavaScript String.includes, used by the handler's catch clause. -/
def strIncludes (s pat : String) : Bool := (s.splitOn pat).length != 1

/-- The catch clause's classification (part_000 line 889):
err.message.includes of the text insufficient stock, or
err.code === ER_ROW_IS_REFERENCED_2. -/
def errTo400 (e : SqlErr) : Bool :=
  strIncludes e.message "insufficient stock" || e.code == "ER_ROW_IS_REFERENCED_2"

/-- The await loop at part_000 lines 881-884: CALL PlaceOrder once per item,
sequentially; each call commits on its own, and the first error aborts the
loop (earlier commits persist). Returns the committed state and the error
that reached the catch clause, if any. -/
def runItems (db : DB) (c : Int) (its : List ReqItem) (m : String) : DB × Option SqlErr :=
  match its with
  | [] => (db, none)
  | it :: rest =>
    match placeOrderCommitted db c (it.bookId.getD 0) (it.quantity.getD 0) m with
    | (db1, Except.ok _) => runItems db1 c rest m
    | (db1, Except.error e) => (db1, some e)

/-- The POST /api/orders handler (part_000 lines 862-895): 503 without a
pool; the three validation returns; then the PlaceOrder loop; 201 with
the fixed message body on success; the catch clause maps an error to 400
or 500. Returns the pool state after the request and the response. -/
def postOrders (pool : Option DB) (req : OrderReq) : Option DB × HResp :=
  match pool with
  | none => (none, ⟨503, [("error", Json.str "Database not connected")]⟩)
  | some db =>
    if requiredMissing req then
      (some db, ⟨400, [("error", Json.str "Customer ID, items array, and payment method are required")]⟩)
    else if !(validPaymentMethods.contains (req.paymentMethod.getD "")) then
      (some db, ⟨400, [("error", Json.str "Invalid payment method.")]⟩)
    else if (req.items.getD []).any itemInvalid then
      (some db, ⟨400, [("error", Json.str "Each item must have bookId and quantity > 0")]⟩)
    else
      match runItems db (req.customerId.getD 0) (req.items.getD []) (req.paymentMethod.getD "") with
      | (db1, none) => (some db1, ⟨201, [("message", Json.str "Order placed successfully")]⟩)
      | (db1, some e) =>
        if errTo400 e then
          (some db1, ⟨400, [("error", Json.str "Insufficient stock or data conflict.")]⟩)
        else
          (some db1, ⟨500, [("error", Json.str "Failed to place order")]⟩)

/-- The PUT /api/orders/:id/status handler (part_000 lines 919-934):
idParam is parseInt of the path parameter (none = NaN); 400 when the id is
NaN or the status falsy; otherwise an unconditional UPDATE whose
affected-row count is not inspected, then 200 with the fixed message. -/
def putOrderStatus (pool : Option DB) (idParam : Option Int) (status : Option String) :
    Option DB × HResp :=
  match pool with
  | none => (none, ⟨503, [("error", Json.str "Database not connected")]⟩)
  | some db =>
    match idParam with
    | none => (some db, ⟨400, [("error", Json.str "Valid order ID and status are required")]⟩)
    | some oid =>
      if !(truthyStr status) then
        (some db, ⟨400, [("error", Json.str "Valid order ID and status are required")]⟩)
      else
        (some { db with orders := db.orders.map (fun o =>
            if o.orderID == oid then { o with status := status.getD "" } else o) },
         ⟨200, [("message", Json.str "Order status updated successfully")]⟩)

/-! ## Derived queries over the database state -/

/-- The price of book b, 0 when absent (the workflow only reads it for
existing books). -/
def priceOf (db : DB) (b : Int) : Int :=
  match db.books.find? (fun bk => bk.bookID == b) with
  | some bk => bk.price
  | none => 0

/-- The OrderDetails rows of one order. -/
def detailsOf (db : DB) (oid : Int) : List OrderDetail :=
  db.orderDetails.filter (fun d => d.orderID == oid)

/-- The Payments rows of one order. -/
def paymentsOf (db : DB) (oid : Int) : List Payment :=
  db.payments.filter (fun p => p.orderID == oid)

/-- The OrderLog rows of one order. -/
def logsOf (db : DB) (oid : Int) : List LogEntry :=
  db.orderLog.filter (fun l => l.orderID == oid)

/-- The sum over an order's line items of (current unit price × quantity). -/
def lineItemsTotal (db : DB) (oid : Int) : Int :=
  ((detailsOf db oid).map (fun d => priceOf db d.bookID * d.quantity)).sum

/-- The payment-total invariant for one order: a single Payments row whose
Amount equals the sum of the order's line items. -/
def paymentMatchesItems (db : DB) (oid : Int) : Prop :=
  ∃ p, paymentsOf db oid = [p] ∧ p.amount = lineItemsTotal db oid

/-- Well-formedness that AUTO_INCREMENT and the foreign keys maintain:
every stored OrderID is below the Orders counter, and the Books CHECK
(Price >= 0) holds. -/
def DB.wf (db : DB) : Prop :=
  (∀ o ∈ db.orders, o.orderID < db.nextOrderID) ∧
  (∀ d ∈ db.orderDetails, d.orderID < db.nextOrderID) ∧
  (∀ p ∈ db.payments, p.orderID < db.nextOrderID) ∧
  (∀ l ∈ db.orderLog, l.orderID < db.nextOrderID) ∧
  (∀ bk ∈ db.books, 0 ≤ bk.price)

instance (db : DB) : Decidable db.wf := by
  unfold DB.wf; infer_instance

/-! ## Concrete states for witnesses and counterexamples -/

deriving instance DecidableEq for Except

/-- A small database mirroring the seeded catalogue: book 1 (price 1200.00,
stock 30), book 2 (price 900.00, stock 100), customers 1..3, no orders yet. -/
def dbW : DB :=
  { customers := [1, 2, 3]
    books := [{ bookID := 1, price := 120000, stock := 30 },
              { bookID := 2, price := 90000, stock := 100 }]
    orders := []
    orderDetails := []
    payments := []
    orderLog := []
    nextOrderID := 1
    nextOrderDetailID := 1
    nextPaymentID := 1
    nextLogID := 1 }

/-- The POST /api/orders body for the insufficient-stock scenario:
customer 1 orders 50 copies of book 1, which has only 30 in stock. -/
def reqOverStock : OrderReq :=
  { customerId := some 1
    items := some [{ bookId := some 1, quantity := some 50 }]
    paymentMethod := some "Cash" }

/-- The database state a successful PlaceOrder call commits: the new
Pending order, its line item, the conditionally decremented stock, the
payment for Price * Quantity, the log entry, and the bumped counters. -/
def succState (db : DB) (c b q : Int) (m : String) : DB :=
  { customers := db.customers
    books := db.books.map (applyStock b q)
    orders := db.orders ++ [{ orderID := db.nextOrderID, customerID := c, status := "Pending" }]
    orderDetails := db.orderDetails ++
      [{ orderDetailID := db.nextOrderDetailID, orderID := db.nextOrderID,
         bookID := b, quantity := q }]
    payments := db.payments ++
      [{ paymentID := db.nextPaymentID, orderID := db.nextOrderID,
         paymentMethod := m, amount := priceOf db b * q }]
    orderLog := db.orderLog ++
      [{ logID := db.nextLogID, orderID := db.nextOrderID, paymentMethod := m }]
    nextOrderID := db.nextOrderID + 1
    nextOrderDetailID := db.nextOrderDetailID + 1
    nextPaymentID := db.nextPaymentID + 1
    nextLogID := db.nextLogID + 1 }

/-- A POST /api/orders body with a payment method outside the allowed
enum. -/
def reqBadMethod : OrderReq :=
  { customerId := some 1
    items := some [{ bookId := some 2, quantity := some 1 }]
    paymentMethod := some "Bitcoin" }

/-- A POST /api/orders body whose single item has quantity 0. -/
def reqZeroQty : OrderReq :=
  { customerId := some 1
    items := some [{ bookId := some 2, quantity := some 0 }]
    paymentMethod := some "Cash" }

/-- A valid POST /api/orders body: customer 1 buys one copy of book 2. -/
def reqValid : OrderReq :=
  { customerId := some 1
    items := some [{ bookId := some 2, quantity := some 1 }]
    paymentMethod := some "SadaPay" }

/-- A valid two-item POST /api/orders body: one copy of book 1 and two
copies of book 2, paid by card. -/
def reqTwoItems : OrderReq :=
  { customerId := some 1
    items := some [{ bookId := some 1, quantity := some 1 },
                   { bookId := some 2, quantity := some 2 }]
    paymentMethod := some "Card" }

/-- The Pending orders a request with n items appends, with consecutive
AUTO_INCREMENT ids starting at s. -/
def expectedOrders (s c : Int) (n : Nat) : List Order :=
  match n with
  | 0 => []
  | Nat.succ k => { orderID := s, customerID := c, status := "Pending" } :: expectedOrders (s + 1) c k

/-! ## Sanity checks on the embedding -/

example :
    placeOrderCommitted dbW 1 2 1 "SadaPay" =
      ({ dbW with
          orders := [{ orderID := 1, customerID := 1, status := "Pending" }]
          orderDetails := [{ orderDetailID := 1, orderID := 1, bookID := 2, quantity := 1 }]
          books := [{ bookID := 1, price := 120000, stock := 30 },
                    { bookID := 2, price := 90000, stock := 99 }]
          payments := [{ paymentID := 1, orderID := 1, paymentMethod := "SadaPay", amount := 90000 }]
          orderLog := [{ logID := 1, orderID := 1, paymentMethod := "SadaPay" }]
          nextOrderID := 2, nextOrderDetailID := 2, nextPaymentID := 2, nextLogID := 2 },
       Except.ok (1, 90000)) := by decide

example :
    (placeOrderCommitted dbW 99 1 1 "Cash").2 =
      Except.error (SqlErr.noReferencedRow "orders_ibfk_1") := by decide

-- Insufficient stock: quantity 50 > stock 30, yet the call still commits.
example : (placeOrderCommitted dbW 1 1 50 "Cash").2 = Except.ok (1, 6000000) := by decide

example : ((placeOrderCommitted dbW 1 1 50 "Cash").1).books = dbW.books := by decide

/-! ## Supporting lemmas -/

/-- A map whose function fixes every member of the list is the identity. -/
theorem map_id_of_fixed {α : Type} (f : α → α) (l : List α) (h : ∀ x ∈ l, f x = x) :
    l.map f = l := by
  induction l with
  | nil => rfl
  | cons a t ih =>
    simp only [List.map_cons, h a (by simp)]
    rw [ih (fun x hx => h x (by simp [hx]))]

/-- A filter over a list none of whose members satisfy the test is empty. -/
theorem filter_eq_nil_of_none {α : Type} (p : α → Bool) (l : List α)
    (h : ∀ x ∈ l, p x = false) : l.filter p = [] := by
  induction l with
  | nil => rfl
  | cons a t ih =>
    rw [List.filter_cons, h a (by simp)]
    exact ih (fun x hx => h x (by simp [hx]))

/-- The conditional stock decrement never changes a book's id. -/
theorem applyStock_bookID (b q : Int) (bk : Book) :
    (applyStock b q bk).bookID = bk.bookID := by
  unfold applyStock; split <;> rfl

/-- The conditional stock decrement never changes a book's price. -/
theorem applyStock_price (b q : Int) (bk : Book) :
    (applyStock b q bk).price = bk.price := by
  unfold applyStock; split <;> rfl

/-- Searching by BookID commutes with the stock decrement map. -/
theorem find?_map_applyStock (l : List Book) (b q x : Int) :
    (l.map (applyStock b q)).find? (fun bk => bk.bookID == x) =
      (l.find? (fun bk => bk.bookID == x)).map (applyStock b q) := by
  induction l with
  | nil => rfl
  | cons a t ih =>
    simp only [List.map_cons, List.find?]
    rw [applyStock_bookID]
    cases hb : (a.bookID == x) with
    | true => rfl
    | false => exact ih

/-- Any state whose Books table is the stock-decremented image of another
state's Books table reports the same prices. -/
theorem priceOf_books_eq {dbx db : DB} {b q : Int}
    (hb : dbx.books = db.books.map (applyStock b q)) (x : Int) :
    priceOf dbx x = priceOf db x := by
  unfold priceOf
  rw [hb, find?_map_applyStock]
  cases db.books.find? (fun bk => bk.bookID == x) with
  | none => rfl
  | some bk => simp [applyStock_price]

/-- Inversion of the Orders insert: success forces the customer foreign key
and fixes the new row and the returned LAST_INSERT_ID. -/
theorem insertOrder_ok_inv {db db1 : DB} {c oid : Int}
    (h : insertOrder db c = Except.ok (db1, oid)) :
    db.customers.contains c = true ∧ oid = db.nextOrderID ∧
    db1 = { db with
        orders := db.orders ++ [{ orderID := db.nextOrderID, customerID := c, status := "Pending" }],
        nextOrderID := db.nextOrderID + 1 } := by
  unfold insertOrder at h
  by_cases hc : db.customers.contains c = true
  · rw [if_pos hc] at h
    simp only [Except.ok.injEq, Prod.mk.injEq] at h
    exact ⟨hc, h.2.symm, h.1.symm⟩
  · rw [if_neg hc] at h
    cases h

/-- Inversion of the OrderDetails insert: success forces both foreign keys
and the quantity CHECK, and fixes the new row. -/
theorem insertOrderDetail_ok_inv {db db1 : DB} {oid b q : Int}
    (h : insertOrderDetail db oid b q = Except.ok db1) :
    db.orders.any (fun o => o.orderID == oid) = true ∧
    db.books.any (fun bk => bk.bookID == b) = true ∧
    0 < q ∧
    db1 = { db with
        orderDetails := db.orderDetails ++
          [{ orderDetailID := db.nextOrderDetailID, orderID := oid, bookID := b, quantity := q }],
        nextOrderDetailID := db.nextOrderDetailID + 1 } := by
  unfold insertOrderDetail at h
  by_cases h1 : db.orders.any (fun o => o.orderID == oid) = true
  · rw [h1] at h
    by_cases h2 : db.books.any (fun bk => bk.bookID == b) = true
    · rw [h2] at h
      by_cases h3 : q ≤ 0
      · simp [h3] at h
      · simp only [Bool.not_true, Bool.false_eq_true, if_false, if_neg h3,
          Except.ok.injEq] at h
        exact ⟨h1, h2, by omega, h.symm⟩
    · rw [Bool.not_eq_true] at h2
      rw [h2] at h
      simp at h
  · rw [Bool.not_eq_true] at h1
    rw [h1] at h
    simp at h

/-- Inversion of the Payments insert: success forces the order foreign key,
the PaymentMethod CHECK and the Amount CHECK, and fixes the new row. -/
theorem insertPayment_ok_inv {db db1 : DB} {oid : Int} {m : String} {amt : Int}
    (h : insertPayment db oid m amt = Except.ok db1) :
    db.orders.any (fun o => o.orderID == oid) = true ∧
    allowedMethods.contains m = true ∧
    0 ≤ amt ∧
    db1 = { db with
        payments := db.payments ++
          [{ paymentID := db.nextPaymentID, orderID := oid, paymentMethod := m, amount := amt }],
        nextPaymentID := db.nextPaymentID + 1 } := by
  unfold insertPayment at h
  by_cases h1 : db.orders.any (fun o => o.orderID == oid) = true
  · rw [h1] at h
    by_cases h2 : allowedMethods.contains m = true
    · rw [h2] at h
      by_cases h3 : amt < 0
      · simp [h3] at h
      · simp only [Bool.not_true, Bool.false_eq_true, if_false, if_neg h3,
          Except.ok.injEq] at h
        exact ⟨h1, h2, by omega, h.symm⟩
    · rw [Bool.not_eq_true] at h2
      rw [h2] at h
      simp at h
  · rw [Bool.not_eq_true] at h1
    rw [h1] at h
    simp at h

/-- Inversion of the OrderLog insert: success forces the order foreign key
and fixes the new row. -/
theorem insertOrderLog_ok_inv {db db1 : DB} {oid : Int} {m : String}
    (h : insertOrderLog db oid m = Except.ok db1) :
    db.orders.any (fun o => o.orderID == oid) = true ∧
    db1 = { db with
        orderLog := db.orderLog ++ [{ logID := db.nextLogID, orderID := oid, paymentMethod := m }],
        nextLogID := db.nextLogID + 1 } := by
  unfold insertOrderLog at h
  by_cases h1 : db.orders.any (fun o => o.orderID == oid) = true
  · rw [h1] at h
    simp only [Bool.not_true, Bool.false_eq_true, if_false, Except.ok.injEq] at h
    exact ⟨h1, h.symm⟩
  · rw [Bool.not_eq_true] at h1
    rw [h1] at h
    simp at h

/-- Master inversion for the PlaceOrder transaction: a successful run is
exactly a transition from db to succState db c b q m, returns the new
order id and Price * Quantity, and certifies every constraint the
statements enforced on the way. -/
theorem placeOrderTx_ok_inv {db db1 : DB} {c b q oid total : Int} {m : String}
    (h : placeOrderTx db c b q m = Except.ok (db1, oid, total)) :
    oid = db.nextOrderID ∧
    db.customers.contains c = true ∧
    db.books.any (fun bk => bk.bookID == b) = true ∧
    0 < q ∧
    allowedMethods.contains m = true ∧
    total = priceOf db b * q ∧
    0 ≤ total ∧
    db1 = succState db c b q m := by
  unfold placeOrderTx at h
  cases hio : insertOrder db c with
  | error e => rw [hio] at h; cases h
  | ok r =>
    obtain ⟨dbA, oidA⟩ := r
    rw [hio] at h
    dsimp only at h
    obtain ⟨hc, hoidA, hdbA⟩ := insertOrder_ok_inv hio
    cases hid : insertOrderDetail dbA oidA b q with
    | error e => rw [hid] at h; cases h
    | ok dbB =>
      rw [hid] at h
      dsimp only at h
      obtain ⟨-, hbB, hq, hdbB⟩ := insertOrderDetail_ok_inv hid
      have hbooksA : dbA.books = db.books := by rw [hdbA]
      have hbooksB : dbB.books = db.books := by rw [hdbB, hdbA]
      have hbooksAny : db.books.any (fun bk => bk.bookID == b) = true := by
        rw [hbooksA] at hbB; exact hbB
      cases hfind : (updateStock dbB b q).books.find? (fun bk => bk.bookID == b) with
      | none =>
        unfold selectPrice at h
        rw [hfind] at h
        cases h
      | some bkv =>
        unfold selectPrice at h
        rw [hfind] at h
        dsimp only at h
        have hpr : bkv.price = priceOf db b := by
          have hub : (updateStock dbB b q).books = db.books.map (applyStock b q) := by
            unfold updateStock; rw [hbooksB]
          rw [hub, find?_map_applyStock] at hfind
          unfold priceOf
          cases hdf : db.books.find? (fun bk => bk.bookID == b) with
          | none => rw [hdf] at hfind; cases hfind
          | some bk0 =>
            rw [hdf] at hfind
            simp only [Option.map_some', Option.some.injEq] at hfind
            rw [← hfind, applyStock_price]
        cases hip : insertPayment (updateStock dbB b q) oidA m (bkv.price * q) with
        | error e => rw [hip] at h; cases h
        | ok dbC =>
          rw [hip] at h
          dsimp only at h
          obtain ⟨-, hm, hamt, hdbC⟩ := insertPayment_ok_inv hip
          cases hil : insertOrderLog dbC oidA m with
          | error e => rw [hil] at h; cases h
          | ok dbD =>
            rw [hil] at h
            dsimp only at h
            obtain ⟨-, hdbD⟩ := insertOrderLog_ok_inv hil
            simp only [Except.ok.injEq, Prod.mk.injEq] at h
            obtain ⟨hdb1, hoid, htotal⟩ := h
            subst hdb1 hoid htotal hoidA
            refine ⟨rfl, hc, hbooksAny, hq, hm, by rw [hpr], hamt, ?_⟩
            rw [hdbD, hdbC, hdbB, hdbA]
            unfold updateStock succState
            rw [hpr]

/-- The Orders insert succeeds for an existing customer. -/
theorem insertOrder_ok_eq (db : DB) (c : Int) (hc : db.customers.contains c = true) :
    insertOrder db c = Except.ok ({ db with
        orders := db.orders ++ [{ orderID := db.nextOrderID, customerID := c, status := "Pending" }],
        nextOrderID := db.nextOrderID + 1 }, db.nextOrderID) := by
  unfold insertOrder; rw [if_pos hc]

/-- The OrderDetails insert succeeds when both parents exist and the
quantity is positive. -/
theorem insertOrderDetail_ok_eq (db : DB) (oid b q : Int)
    (h1 : db.orders.any (fun o => o.orderID == oid) = true)
    (h2 : db.books.any (fun bk => bk.bookID == b) = true)
    (h3 : 0 < q) :
    insertOrderDetail db oid b q = Except.ok { db with
        orderDetails := db.orderDetails ++
          [{ orderDetailID := db.nextOrderDetailID, orderID := oid, bookID := b, quantity := q }],
        nextOrderDetailID := db.nextOrderDetailID + 1 } := by
  unfold insertOrderDetail
  rw [h1, h2]
  simp [if_neg (by omega : ¬ q ≤ 0)]

/-- Reading the price after the conditional stock update returns the price
the original state stored for that book. -/
theorem selectPrice_after_update (dbx db : DB) (b q : Int) (bk0 : Book)
    (hbx : dbx.books = db.books)
    (hbk0 : db.books.find? (fun bk => bk.bookID == b) = some bk0) :
    selectPrice (updateStock dbx b q) b = Except.ok bk0.price := by
  unfold selectPrice updateStock
  dsimp only
  rw [hbx, find?_map_applyStock, hbk0]
  simp [applyStock_price]

/-- The Payments insert succeeds when the order exists, the method passes
the CHECK and the amount is non-negative. -/
theorem insertPayment_ok_eq (db : DB) (oid : Int) (m : String) (amt : Int)
    (h1 : db.orders.any (fun o => o.orderID == oid) = true)
    (hm : allowedMethods.contains m = true)
    (hamt : 0 ≤ amt) :
    insertPayment db oid m amt = Except.ok { db with
        payments := db.payments ++
          [{ paymentID := db.nextPaymentID, orderID := oid, paymentMethod := m, amount := amt }],
        nextPaymentID := db.nextPaymentID + 1 } := by
  unfold insertPayment
  rw [h1, hm]
  simp [if_neg (by omega : ¬ amt < 0)]

/-- The OrderLog insert succeeds when the order exists. -/
theorem insertOrderLog_ok_eq (db : DB) (oid : Int) (m : String)
    (h1 : db.orders.any (fun o => o.orderID == oid) = true) :
    insertOrderLog db oid m = Except.ok { db with
        orderLog := db.orderLog ++ [{ logID := db.nextLogID, orderID := oid, paymentMethod := m }],
        nextLogID := db.nextLogID + 1 } := by
  unfold insertOrderLog
  rw [h1]
  simp

/-- Forward run of the PlaceOrder transaction: when the customer and the
book exist, the quantity is positive, the method passes the Payments CHECK
and prices are non-negative, the transaction succeeds and commits
succState. -/
theorem placeOrderTx_ok (db : DB) (c b q : Int) (m : String)
    (hc : db.customers.contains c = true)
    (hb : db.books.any (fun bk => bk.bookID == b) = true)
    (hq : 0 < q)
    (hm : allowedMethods.contains m = true)
    (hp : 0 ≤ priceOf db b) :
    placeOrderTx db c b q m =
      Except.ok (succState db c b q m, db.nextOrderID, priceOf db b * q) := by
  obtain ⟨bk0, hbk0⟩ : ∃ bk0, db.books.find? (fun bk => bk.bookID == b) = some bk0 := by
    rw [List.any_eq_true] at hb
    obtain ⟨bk, hmem, hpred⟩ := hb
    exact Option.isSome_iff_exists.mp (List.find?_isSome.mpr ⟨bk, hmem, hpred⟩)
  have hpr : priceOf db b = bk0.price := by unfold priceOf; rw [hbk0]
  have h1 := insertOrder_ok_eq db c hc
  have h2 := insertOrderDetail_ok_eq
    { customers := db.customers, books := db.books,
      orders := db.orders ++ [{ orderID := db.nextOrderID, customerID := c, status := "Pending" }],
      orderDetails := db.orderDetails, payments := db.payments, orderLog := db.orderLog,
      nextOrderID := db.nextOrderID + 1, nextOrderDetailID := db.nextOrderDetailID,
      nextPaymentID := db.nextPaymentID, nextLogID := db.nextLogID }
    db.nextOrderID b q (by simp) hb hq
  have h3 := selectPrice_after_update
    { customers := db.customers, books := db.books,
      orders := db.orders ++ [{ orderID := db.nextOrderID, customerID := c, status := "Pending" }],
      orderDetails := db.orderDetails ++
        [{ orderDetailID := db.nextOrderDetailID, orderID := db.nextOrderID,
           bookID := b, quantity := q }],
      payments := db.payments, orderLog := db.orderLog,
      nextOrderID := db.nextOrderID + 1, nextOrderDetailID := db.nextOrderDetailID + 1,
      nextPaymentID := db.nextPaymentID, nextLogID := db.nextLogID }
    db b q bk0 rfl hbk0
  have h4 := insertPayment_ok_eq
    { customers := db.customers, books := db.books.map (applyStock b q),
      orders := db.orders ++ [{ orderID := db.nextOrderID, customerID := c, status := "Pending" }],
      orderDetails := db.orderDetails ++
        [{ orderDetailID := db.nextOrderDetailID, orderID := db.nextOrderID,
           bookID := b, quantity := q }],
      payments := db.payments, orderLog := db.orderLog,
      nextOrderID := db.nextOrderID + 1, nextOrderDetailID := db.nextOrderDetailID + 1,
      nextPaymentID := db.nextPaymentID, nextLogID := db.nextLogID }
    db.nextOrderID m (bk0.price * q) (by simp) hm
    (by rw [← hpr]; exact mul_nonneg hp (le_of_lt hq))
  have h5 := insertOrderLog_ok_eq
    { customers := db.customers, books := db.books.map (applyStock b q),
      orders := db.orders ++ [{ orderID := db.nextOrderID, customerID := c, status := "Pending" }],
      orderDetails := db.orderDetails ++
        [{ orderDetailID := db.nextOrderDetailID, orderID := db.nextOrderID,
           bookID := b, quantity := q }],
      payments := db.payments ++
        [{ paymentID := db.nextPaymentID, orderID := db.nextOrderID,
           paymentMethod := m, amount := bk0.price * q }],
      orderLog := db.orderLog,
      nextOrderID := db.nextOrderID + 1, nextOrderDetailID := db.nextOrderDetailID + 1,
      nextPaymentID := db.nextPaymentID + 1, nextLogID := db.nextLogID }
    db.nextOrderID m (by simp)
  unfold placeOrderTx
  rw [h1]
  dsimp only
  rw [h2]
  dsimp only
  rw [h3]
  dsimp only [updateStock]
  rw [h4]
  dsimp only
  rw [h5]
  dsimp only
  unfold succState
  rw [hpr]

/-- A successful CALL PlaceOrder, seen at the committed level: it commits
exactly succState, returns the fresh order id and Price * Quantity, and
certifies the constraints the statements enforced. -/
theorem placeOrderCommitted_ok_inv {db : DB} {c b q : Int} {m : String} {oid total : Int}
    (h : (placeOrderCommitted db c b q m).2 = Except.ok (oid, total)) :
    (placeOrderCommitted db c b q m).1 = succState db c b q m ∧
    oid = db.nextOrderID ∧
    db.customers.contains c = true ∧
    db.books.any (fun bk => bk.bookID == b) = true ∧
    0 < q ∧
    allowedMethods.contains m = true ∧
    total = priceOf db b * q ∧
    0 ≤ total := by
  unfold placeOrderCommitted at *
  cases htx : placeOrderTx db c b q m with
  | error e =>
    rw [htx] at h
    dsimp only at h
    cases h
  | ok r =>
    obtain ⟨db1, oid1, tot1⟩ := r
    rw [htx] at h
    dsimp only at h
    simp only [Except.ok.injEq, Prod.mk.injEq] at h
    obtain ⟨hoid, htot⟩ := h
    obtain ⟨ho, hc, hbk, hq, hm, htotal, hnn, hdb1⟩ := placeOrderTx_ok_inv htx
    subst hoid htot ho
    exact ⟨hdb1, rfl, hc, hbk, hq, hm, htotal, hnn⟩

/-- The new order's Payments rows in the committed state: exactly the one
the procedure inserted, provided all pre-existing payments reference
strictly older order ids. -/
theorem paymentsOf_succState_new (db : DB) (c b q : Int) (m : String)
    (hfresh : ∀ p ∈ db.payments, p.orderID < db.nextOrderID) :
    paymentsOf (succState db c b q m) db.nextOrderID =
      [{ paymentID := db.nextPaymentID, orderID := db.nextOrderID,
         paymentMethod := m, amount := priceOf db b * q }] := by
  unfold paymentsOf succState
  dsimp only
  rw [List.filter_append]
  rw [filter_eq_nil_of_none _ _ (fun p hp => by
    have hlt := hfresh p hp
    simp [Int.ne_of_lt hlt])]
  simp

/-- Payments of any other order are untouched by a placement. -/
theorem paymentsOf_succState_old (db : DB) (c b q : Int) (m : String) (x : Int)
    (hx : x ≠ db.nextOrderID) :
    paymentsOf (succState db c b q m) x = paymentsOf db x := by
  unfold paymentsOf succState
  dsimp only
  rw [List.filter_append]
  simp [Ne.symm hx]

/-- The new order's OrderDetails rows in the committed state: exactly the
one line item the procedure inserted. -/
theorem detailsOf_succState_new (db : DB) (c b q : Int) (m : String)
    (hfresh : ∀ d ∈ db.orderDetails, d.orderID < db.nextOrderID) :
    detailsOf (succState db c b q m) db.nextOrderID =
      [{ orderDetailID := db.nextOrderDetailID, orderID := db.nextOrderID,
         bookID := b, quantity := q }] := by
  unfold detailsOf succState
  dsimp only
  rw [List.filter_append]
  rw [filter_eq_nil_of_none _ _ (fun d hd => by
    have hlt := hfresh d hd
    simp [Int.ne_of_lt hlt])]
  simp

/-- Line items of any other order are untouched by a placement. -/
theorem detailsOf_succState_old (db : DB) (c b q : Int) (m : String) (x : Int)
    (hx : x ≠ db.nextOrderID) :
    detailsOf (succState db c b q m) x = detailsOf db x := by
  unfold detailsOf succState
  dsimp only
  rw [List.filter_append]
  simp [Ne.symm hx]

/-- The new order's OrderLog rows in the committed state: exactly the one
entry the procedure appended. -/
theorem logsOf_succState_new (db : DB) (c b q : Int) (m : String)
    (hfresh : ∀ l ∈ db.orderLog, l.orderID < db.nextOrderID) :
    logsOf (succState db c b q m) db.nextOrderID =
      [{ logID := db.nextLogID, orderID := db.nextOrderID, paymentMethod := m }] := by
  unfold logsOf succState
  dsimp only
  rw [List.filter_append]
  rw [filter_eq_nil_of_none _ _ (fun l hl => by
    have hlt := hfresh l hl
    simp [Int.ne_of_lt hlt])]
  simp

/-- Log entries of any other order are untouched by a placement. -/
theorem logsOf_succState_old (db : DB) (c b q : Int) (m : String) (x : Int)
    (hx : x ≠ db.nextOrderID) :
    logsOf (succState db c b q m) x = logsOf db x := by
  unfold logsOf succState
  dsimp only
  rw [List.filter_append]
  simp [Ne.symm hx]

/-- Placement decrements stock but never changes a price. -/
theorem priceOf_succState (db : DB) (c b q : Int) (m : String) (x : Int) :
    priceOf (succState db c b q m) x = priceOf db x :=
  priceOf_books_eq rfl x

/-- The new order's line-item total equals Price * Quantity. -/
theorem lineItemsTotal_succState_new (db : DB) (c b q : Int) (m : String)
    (hfresh : ∀ d ∈ db.orderDetails, d.orderID < db.nextOrderID) :
    lineItemsTotal (succState db c b q m) db.nextOrderID = priceOf db b * q := by
  unfold lineItemsTotal
  rw [detailsOf_succState_new db c b q m hfresh]
  simp [priceOf_succState]

/-- The line-item total of any other order is untouched by a placement. -/
theorem lineItemsTotal_succState_old (db : DB) (c b q : Int) (m : String) (x : Int)
    (hx : x ≠ db.nextOrderID) :
    lineItemsTotal (succState db c b q m) x = lineItemsTotal db x := by
  unfold lineItemsTotal
  rw [detailsOf_succState_old db c b q m x hx]
  have hfs : (fun d : OrderDetail => priceOf (succState db c b q m) d.bookID * d.quantity) =
      (fun d : OrderDetail => priceOf db d.bookID * d.quantity) :=
    funext (fun d => by rw [priceOf_succState])
  rw [hfs]

/-- Whether some book has a given id is unchanged by a placement. -/
theorem books_any_succState (db : DB) (c b q : Int) (m : String) (x : Int) :
    (succState db c b q m).books.any (fun bk => bk.bookID == x) =
      db.books.any (fun bk => bk.bookID == x) := by
  unfold succState
  dsimp only
  rw [List.any_map]
  congr 1
  funext bk
  simp [Function.comp, applyStock_bookID]

/-- The Books CHECK (Price >= 0) is preserved by a placement. -/
theorem pricesNonneg_succState (db : DB) (c b q : Int) (m : String)
    (hp : ∀ bk ∈ db.books, 0 ≤ bk.price) :
    ∀ bk ∈ (succState db c b q m).books, 0 ≤ bk.price := by
  unfold succState
  dsimp only
  intro bk hbk
  rw [List.mem_map] at hbk
  obtain ⟨bk0, hbk0, rfl⟩ := hbk
  rw [applyStock_price]
  exact hp bk0 hbk0

/-- A non-negative Books table reports non-negative prices. -/
theorem priceOf_nonneg (db : DB) (b : Int) (hp : ∀ bk ∈ db.books, 0 ≤ bk.price) :
    0 ≤ priceOf db b := by
  unfold priceOf
  cases hf : db.books.find? (fun bk => bk.bookID == b) with
  | none => simp
  | some bk => exact hp bk (List.mem_of_find?_eq_some hf)

/-- Placement preserves well-formedness: the new rows all carry the fresh
order id, which stays below the bumped counter. -/
theorem wf_succState (db : DB) (c b q : Int) (m : String) (hwf : db.wf) :
    (succState db c b q m).wf := by
  obtain ⟨hO, hD, hP, hL, hB⟩ := hwf
  refine ⟨?_, ?_, ?_, ?_, pricesNonneg_succState db c b q m hB⟩ <;>
    (unfold succState; dsimp only; intro r hr; rw [List.mem_append] at hr) <;>
    rcases hr with hr | hr
  · exact lt_trans (hO r hr) (by omega)
  · simp at hr; rw [hr]; dsimp only; omega
  · exact lt_trans (hD r hr) (by omega)
  · simp at hr; rw [hr]; dsimp only; omega
  · exact lt_trans (hP r hr) (by omega)
  · simp at hr; rw [hr]; dsimp only; omega
  · exact lt_trans (hL r hr) (by omega)
  · simp at hr; rw [hr]; dsimp only; omega

/-- Every expected order id is at least the starting id. -/
theorem expectedOrders_id_ge (s c : Int) (n : Nat) :
    ∀ o ∈ expectedOrders s c n, s ≤ o.orderID := by
  induction n generalizing s with
  | zero => intro o ho; cases ho
  | succ k ih =>
    intro o ho
    unfold expectedOrders at ho
    rcases List.mem_cons.mp ho with rfl | ho
    · simp
    · exact le_trans (by omega) (ih (s + 1) o ho)

/-- The expected order ids are pairwise distinct. -/
theorem expectedOrders_ids_nodup (s c : Int) (n : Nat) :
    ((expectedOrders s c n).map (fun o => o.orderID)).Nodup := by
  induction n generalizing s with
  | zero => simp [expectedOrders]
  | succ k ih =>
    unfold expectedOrders
    rw [List.map_cons, List.nodup_cons]
    dsimp only
    refine ⟨fun hmem => ?_, ih (s + 1)⟩
    rw [List.mem_map] at hmem
    obtain ⟨o, ho, hid⟩ := hmem
    have := expectedOrders_id_ge (s + 1) c k o ho
    omega

/-- One expected order per request item. -/
theorem expectedOrders_length (s c : Int) (n : Nat) :
    (expectedOrders s c n).length = n := by
  induction n generalizing s with
  | zero => rfl
  | succ k ih => unfold expectedOrders; rw [List.length_cons, ih (s + 1)]

/-- Members of the handler's validPaymentMethods array are exactly the
members of the schema's CHECK list. -/
theorem mem_validPaymentMethods_iff (s : String) :
    s ∈ validPaymentMethods ↔ s ∈ allowedMethods := by
  simp [validPaymentMethods, allowedMethods]
  tauto

/-- The PlaceOrder loop run by the handler: on a well-formed state, with an
existing customer, a CHECK-passing method and items that name existing
books with positive quantities, every call commits. The loop appends one
Pending order per item with consecutive fresh ids, leaves all rows of
older orders untouched, and gives each new order exactly one line item,
one payment and one log entry. Stock levels play no role: the conditional
decrement cannot fail. -/
theorem runItems_ok_strong (its : List ReqItem) : ∀ (db : DB) (c : Int) (m : String),
    db.customers.contains c = true →
    allowedMethods.contains m = true →
    db.wf →
    (∀ it ∈ its, ∃ bv qv, it.bookId = some bv ∧ it.quantity = some qv ∧ 0 < qv ∧
      db.books.any (fun bk => bk.bookID == bv) = true) →
    (runItems db c its m).2 = none ∧
    (runItems db c its m).1.orders =
      db.orders ++ expectedOrders db.nextOrderID c its.length ∧
    (runItems db c its m).1.nextOrderID = db.nextOrderID + (its.length : Int) ∧
    (∀ x : Int, x < db.nextOrderID →
      detailsOf (runItems db c its m).1 x = detailsOf db x ∧
      paymentsOf (runItems db c its m).1 x = paymentsOf db x ∧
      logsOf (runItems db c its m).1 x = logsOf db x) ∧
    (∀ i : Nat, i < its.length →
      (detailsOf (runItems db c its m).1 (db.nextOrderID + (i : Int))).length = 1 ∧
      (paymentsOf (runItems db c its m).1 (db.nextOrderID + (i : Int))).length = 1 ∧
      (logsOf (runItems db c its m).1 (db.nextOrderID + (i : Int))).length = 1) := by
  induction its with
  | nil =>
    intro db c m _ _ _ _
    exact ⟨rfl, by simp [runItems, expectedOrders], by simp [runItems],
      fun x _ => ⟨rfl, rfl, rfl⟩, fun i hi => absurd hi (by simp)⟩
  | cons it rest ih =>
    intro db c m hc hm hwf hits
    obtain ⟨bv, qv, hbv, hqv, hq, hbk⟩ := hits it (List.mem_cons_self it rest)
    have hok := placeOrderTx_ok db c bv qv m hc hbk hq hm
      (priceOf_nonneg db bv hwf.2.2.2.2)
    have hred : runItems db c (it :: rest) m = runItems (succState db c bv qv m) c rest m := by
      conv_lhs => unfold runItems placeOrderCommitted
      rw [hbv, hqv]
      dsimp only [Option.getD_some]
      rw [hok]
    have hrest := ih (succState db c bv qv m) c m hc hm (wf_succState db c bv qv m hwf)
      (fun it2 hit2 => by
        obtain ⟨bv2, qv2, h1, h2, h3, h4⟩ := hits it2 (List.mem_cons_of_mem it hit2)
        exact ⟨bv2, qv2, h1, h2, h3, by rw [books_any_succState]; exact h4⟩)
    obtain ⟨hr1, hr2, hr3, hr4, hr5⟩ := hrest
    have hnextS : (succState db c bv qv m).nextOrderID = db.nextOrderID + 1 := rfl
    refine ⟨by rw [hred]; exact hr1, ?_, ?_, ?_, ?_⟩
    · rw [hred, hr2]
      show (db.orders ++ [_]) ++ _ = _
      rw [List.append_assoc]
      rfl
    · rw [hred, hr3, hnextS, List.length_cons]
      push_cast
      ring
    · intro x hx
      have hx1 : x < (succState db c bv qv m).nextOrderID := by rw [hnextS]; omega
      have hne : x ≠ db.nextOrderID := by omega
      obtain ⟨hd, hp, hl⟩ := hr4 x hx1
      rw [hred]
      exact ⟨by rw [hd, detailsOf_succState_old db c bv qv m x hne],
        by rw [hp, paymentsOf_succState_old db c bv qv m x hne],
        by rw [hl, logsOf_succState_old db c bv qv m x hne]⟩
    · intro i hi
      cases i with
      | zero =>
        have hx1 : db.nextOrderID < (succState db c bv qv m).nextOrderID := by
          rw [hnextS]; omega
        obtain ⟨hd, hp, hl⟩ := hr4 db.nextOrderID hx1
        have hidx : db.nextOrderID + ((0 : Nat) : Int) = db.nextOrderID := by push_cast; ring
        rw [hred, hidx]
        refine ⟨?_, ?_, ?_⟩
        · rw [hd, detailsOf_succState_new db c bv qv m hwf.2.1]; rfl
        · rw [hp, paymentsOf_succState_new db c bv qv m hwf.2.2.1]; rfl
        · rw [hl, logsOf_succState_new db c bv qv m hwf.2.2.2.1]; rfl
      | succ k =>
        have hk : k < rest.length := by
          rw [List.length_cons] at hi; omega
        have hidx : db.nextOrderID + ((Nat.succ k : Nat) : Int) =
            (succState db c bv qv m).nextOrderID + (k : Int) := by
          rw [hnextS]; push_cast; ring
        obtain ⟨hd, hp, hl⟩ := hr5 k hk
        rw [hred, hidx]
        exact ⟨hd, hp, hl⟩

/-- Reduction of the POST /api/orders handler on a structurally valid
request whose PlaceOrder loop raises no error: every validation passes and
the handler answers 201 with the fixed message body, the pool holding the
loop's committed state. -/
theorem postOrders_valid_eq (db : DB) (req : OrderReq) (c : Int)
    (its : List ReqItem) (mm : String)
    (hreqc : req.customerId = some c) (hc0 : c ≠ 0)
    (hreqi : req.items = some its) (hne : its ≠ [])
    (hreqm : req.paymentMethod = some mm) (hmm : mm ∈ validPaymentMethods)
    (hitems : ∀ it ∈ its, ∃ bv qv, it.bookId = some bv ∧ bv ≠ 0 ∧
      it.quantity = some qv ∧ 0 < qv)
    (hrun : (runItems db c its mm).2 = none) :
    postOrders (some db) req =
      (some (runItems db c its mm).1,
       ⟨201, [("message", Json.str "Order placed successfully")]⟩) := by
  have hmm0 : mm = "Cash" ∨ mm = "Card" ∨ mm = "JazzCash" ∨ mm = "EasyPaisa" ∨
      mm = "SadaPay" := by simpa [validPaymentMethods] using hmm
  have hmm' : mm ≠ "" := by
    rcases hmm0 with rfl | rfl | rfl | rfl | rfl <;> decide
  have hrm : requiredMissing req = false := by
    unfold requiredMissing
    rw [hreqc, hreqi, hreqm]
    simp [truthyInt, truthyStr, hc0, hne, hmm']
  have hcont : validPaymentMethods.contains mm = true := List.elem_eq_true_of_mem hmm
  have hanyf : its.any itemInvalid = false := by
    rw [List.any_eq_false]
    intro it hit
    obtain ⟨bv, qv, h1, h2, h3, h4⟩ := hitems it hit
    unfold itemInvalid truthyInt
    rw [h1, h3]
    simp [h2, (by omega : ¬ qv ≤ 0)]
    exact ⟨by omega, h4⟩
  unfold postOrders
  rw [hrm]
  simp only [Bool.false_eq_true, if_false]
  rw [hreqm]
  dsimp only [Option.getD_some]
  rw [hcont]
  simp only [Bool.not_true, Bool.false_eq_true, if_false]
  rw [hreqi]
  dsimp only [Option.getD_some]
  rw [hanyf]
  simp only [Bool.false_eq_true, if_false]
  rw [hreqc]
  dsimp only [Option.getD_some]
  cases hr : runItems db c its mm with
  | mk db1 o2 =>
    rw [hr] at hrun
    dsimp only at hrun
    subst hrun
    rfl

/-! ## Claims -/

/-- C1: the claim states that an order whose quantity exceeds stock is
rejected with HTTP 400 and nothing commits. On the code, the conditional
decrement affects zero rows, the zero-row count is never inspected, and the
placement commits anyway: customer 1 ordering 50 copies of book 1
(stock 30, price 1200.00) gets status 201, stock stays 30, and an order
with a 60000.00 payment is committed. -/
theorem c1_insufficient_stock_commits_anyway :
    (postOrders (some dbW) reqOverStock).2.status = 201 ∧
    ((postOrders (some dbW) reqOverStock).1.getD dbW).books = dbW.books ∧
    ((postOrders (some dbW) reqOverStock).1.getD dbW).orders =
      [{ orderID := 1, customerID := 1, status := "Pending" }] ∧
    ((postOrders (some dbW) reqOverStock).1.getD dbW).payments =
      [{ paymentID := 1, orderID := 1, paymentMethod := "Cash", amount := 6000000 }] := by
  decide

/-- C2: when any statement inside the PlaceOrder transaction fails before
COMMIT, the committed database is unchanged — no partial Order,
OrderDetails, Payment, or OrderLog row from the failed placement remains. -/
theorem c2_failed_placement_rolls_back (db : DB) (c b q : Int) (m : String) (e : SqlErr)
    (h : (placeOrderCommitted db c b q m).2 = Except.error e) :
    (placeOrderCommitted db c b q m).1 = db ∧
    (placeOrderCommitted db c b q m).1.orders = db.orders ∧
    (placeOrderCommitted db c b q m).1.orderDetails = db.orderDetails ∧
    (placeOrderCommitted db c b q m).1.payments = db.payments ∧
    (placeOrderCommitted db c b q m).1.orderLog = db.orderLog := by
  unfold placeOrderCommitted at *
  cases htx : placeOrderTx db c b q m with
  | ok r =>
    obtain ⟨db1, oid, total⟩ := r
    rw [htx] at h
    simp at h
  | error e1 => exact ⟨rfl, rfl, rfl, rfl, rfl⟩

/-- Witness for C2: placing an order for the unknown customer 99 fails on
the Orders foreign key, and the database is left exactly as it was. -/
theorem c2_witness :
    (placeOrderCommitted dbW 99 1 1 "Cash").1 = dbW :=
  (c2_failed_placement_rolls_back dbW 99 1 1 "Cash"
    (SqlErr.noReferencedRow "orders_ibfk_1") (by decide)).1

/-- C10: for a numeric order id and any non-empty status string, the
status-update endpoint answers 200 with the fixed success message — it
never checks that the order exists (when none matches, the UPDATE affects
zero rows and the state is unchanged) and never validates the status value
against Pending/Completed/Cancelled or any transition rule. -/
theorem c10_status_update_always_succeeds (db : DB) (oid : Int) (s : String) (hs : s ≠ "") :
    (putOrderStatus (some db) (some oid) (some s)).2 =
      ⟨200, [("message", Json.str "Order status updated successfully")]⟩ ∧
    ((∀ o ∈ db.orders, o.orderID ≠ oid) →
      (putOrderStatus (some db) (some oid) (some s)).1 = some db) := by
  have hts : truthyStr (some s) = true := by simp [truthyStr, hs]
  refine ⟨?_, fun hno => ?_⟩
  · simp [putOrderStatus, hts]
  · have hmap : db.orders.map (fun o =>
        if o.orderID = oid then { o with status := s } else o) = db.orders :=
      map_id_of_fixed _ _ (fun o ho => if_neg (hno o ho))
    simp [putOrderStatus, hts, hmap]

/-- Witness for C10: updating order 42 to the non-existent status value
Refunded in a database with no orders still answers 200 and changes
nothing. -/
theorem c10_witness :
    (putOrderStatus (some dbW) (some 42) (some "Refunded")).2 =
      ⟨200, [("message", Json.str "Order status updated successfully")]⟩ ∧
    (putOrderStatus (some dbW) (some 42) (some "Refunded")).1 = some dbW := by
  have h := c10_status_update_always_succeeds dbW 42 "Refunded" (by decide)
  exact ⟨h.1, h.2 (by decide)⟩

/-- C3: after every successful placement the new order carries a single
Payments row whose Amount equals the sum of its line items'
(unit price at order time × quantity), and every pre-existing order that
satisfied the invariant still satisfies it (placement changes stock, never
prices, and touches no other order's rows). -/
theorem c3_payment_amount_equals_line_total (db : DB) (c b q : Int) (m : String)
    (oid total : Int) (hwf : db.wf)
    (h : (placeOrderCommitted db c b q m).2 = Except.ok (oid, total)) :
    paymentMatchesItems (placeOrderCommitted db c b q m).1 oid ∧
    ∀ o ∈ db.orders, paymentMatchesItems db o.orderID →
      paymentMatchesItems (placeOrderCommitted db c b q m).1 o.orderID := by
  obtain ⟨hdb1, hoid, -, -, -, -, -, -⟩ := placeOrderCommitted_ok_inv h
  obtain ⟨hwfO, hwfD, hwfP, hwfL, -⟩ := hwf
  rw [hdb1, hoid]
  constructor
  · exact ⟨{ paymentID := db.nextPaymentID, orderID := db.nextOrderID,
             paymentMethod := m, amount := priceOf db b * q },
      paymentsOf_succState_new db c b q m hwfP,
      by rw [lineItemsTotal_succState_new db c b q m hwfD]⟩
  · intro o ho hmatch
    have hne : o.orderID ≠ db.nextOrderID := Int.ne_of_lt (hwfO o ho)
    obtain ⟨p, hp1, hp2⟩ := hmatch
    exact ⟨p, by rw [paymentsOf_succState_old db c b q m _ hne]; exact hp1,
      by rw [lineItemsTotal_succState_old db c b q m _ hne]; exact hp2⟩

/-- Witness for C3: customer 1 buys one copy of book 2 (900.00); the
committed order 1 has one payment of 900.00 matching its line items. -/
theorem c3_witness :
    paymentMatchesItems (placeOrderCommitted dbW 1 2 1 "SadaPay").1 1 :=
  (c3_payment_amount_equals_line_total dbW 1 2 1 "SadaPay" 1 90000
    (by decide) (by decide)).1

/-- C5: every successfully placed order carries exactly one Payments row,
exactly one OrderLog entry and at least one OrderDetails line item, and
the placement does not disturb any pre-existing order's rows. -/
theorem c5_one_payment_one_log_one_line_item (db : DB) (c b q : Int) (m : String)
    (oid total : Int) (hwf : db.wf)
    (h : (placeOrderCommitted db c b q m).2 = Except.ok (oid, total)) :
    (paymentsOf (placeOrderCommitted db c b q m).1 oid).length = 1 ∧
    (logsOf (placeOrderCommitted db c b q m).1 oid).length = 1 ∧
    1 ≤ (detailsOf (placeOrderCommitted db c b q m).1 oid).length ∧
    ∀ o ∈ db.orders,
      paymentsOf (placeOrderCommitted db c b q m).1 o.orderID = paymentsOf db o.orderID ∧
      logsOf (placeOrderCommitted db c b q m).1 o.orderID = logsOf db o.orderID ∧
      detailsOf (placeOrderCommitted db c b q m).1 o.orderID = detailsOf db o.orderID := by
  obtain ⟨hdb1, hoid, -, -, -, -, -, -⟩ := placeOrderCommitted_ok_inv h
  obtain ⟨hwfO, hwfD, hwfP, hwfL, -⟩ := hwf
  rw [hdb1, hoid]
  refine ⟨by rw [paymentsOf_succState_new db c b q m hwfP]; rfl,
    by rw [logsOf_succState_new db c b q m hwfL]; rfl,
    by rw [detailsOf_succState_new db c b q m hwfD]; simp,
    fun o ho => ?_⟩
  have hne : o.orderID ≠ db.nextOrderID := Int.ne_of_lt (hwfO o ho)
  exact ⟨paymentsOf_succState_old db c b q m _ hne,
    logsOf_succState_old db c b q m _ hne,
    detailsOf_succState_old db c b q m _ hne⟩

/-- Witness for C5: the order committed for customer 1 and book 2 has one
payment, one log entry and one line item. -/
theorem c5_witness :
    (paymentsOf (placeOrderCommitted dbW 1 2 1 "SadaPay").1 1).length = 1 :=
  (c5_one_payment_one_log_one_line_item dbW 1 2 1 "SadaPay" 1 90000
    (by decide) (by decide)).1

/-- C6: a request containing an item with a missing bookId, a missing
quantity, or a quantity not greater than 0 is answered 400 by the
validation loop before the PlaceOrder loop runs, and the database state is
unchanged. -/
theorem c6_invalid_item_rejected_before_placement (db : DB) (req : OrderReq)
    (it : ReqItem) (hit : it ∈ req.items.getD [])
    (hbad : it.bookId = none ∨ it.quantity = none ∨ it.quantity.getD 0 ≤ 0) :
    (postOrders (some db) req).1 = some db ∧
    (postOrders (some db) req).2.status = 400 := by
  have hinv : itemInvalid it = true := by
    unfold itemInvalid
    rcases hbad with hcase | hcase | hcase
    · simp [hcase, truthyInt]
    · simp [hcase, truthyInt]
    · simp [hcase]
  have hany : ∃ x ∈ req.items.getD [], itemInvalid x = true := ⟨it, hit, hinv⟩
  unfold postOrders
  by_cases h1 : requiredMissing req = true
  · simp [h1]
  · by_cases h2 : req.paymentMethod.getD "" ∈ validPaymentMethods
    · simp [h1, h2, hany]
    · simp [h1, h2]

/-- Witness for C6: ordering quantity 0 of book 2 is rejected with 400 and
the database is untouched. -/
theorem c6_witness :
    (postOrders (some dbW) reqZeroQty).1 = some dbW ∧
    (postOrders (some dbW) reqZeroQty).2.status = 400 :=
  c6_invalid_item_rejected_before_placement dbW reqZeroQty
    { bookId := some 2, quantity := some 0 } (by decide) (by decide)

/-- C7: a request whose payment method is outside
{SadaPay, EasyPaisa, JazzCash, Card, Cash} is answered 400 before any
placement step and leaves the database unchanged; conversely every
successful placement's method lies in that set. -/
theorem c7_invalid_method_rejected (db : DB) (req : OrderReq)
    (hm : req.paymentMethod.getD "" ∉ allowedMethods) :
    ((postOrders (some db) req).1 = some db ∧
     (postOrders (some db) req).2.status = 400) ∧
    ∀ (dbx : DB) (c b q : Int) (meth : String) (r : Int × Int),
      (placeOrderCommitted dbx c b q meth).2 = Except.ok r → meth ∈ allowedMethods := by
  constructor
  · have h2 : req.paymentMethod.getD "" ∉ validPaymentMethods := fun hmem =>
      hm ((mem_validPaymentMethods_iff _).mp hmem)
    unfold postOrders
    by_cases h1 : requiredMissing req = true
    · simp [h1]
    · simp [h1, h2]
  · intro dbx c b q meth r h
    obtain ⟨r1, r2⟩ := r
    obtain ⟨-, -, -, -, -, hmeth, -, -⟩ := placeOrderCommitted_ok_inv h
    exact List.mem_of_elem_eq_true hmeth

/-- Witness for C7: paying with Bitcoin is rejected with 400 and the
database is untouched. -/
theorem c7_witness :
    (postOrders (some dbW) reqBadMethod).1 = some dbW ∧
    (postOrders (some dbW) reqBadMethod).2.status = 400 :=
  (c7_invalid_method_rejected dbW reqBadMethod (by decide)).1

/-- C8: every Order row the placement transaction creates has status
Pending — the committed Orders table is exactly the old table plus one
Pending row, so placement never creates another status and never
transitions an existing order's status. -/
theorem c8_placement_creates_pending_only (db : DB) (c b q : Int) (m : String)
    (oid total : Int)
    (h : (placeOrderCommitted db c b q m).2 = Except.ok (oid, total)) :
    (placeOrderCommitted db c b q m).1.orders =
      db.orders ++ [{ orderID := oid, customerID := c, status := "Pending" }] := by
  obtain ⟨hdb1, hoid, -, -, -, -, -, -⟩ := placeOrderCommitted_ok_inv h
  rw [hdb1, hoid]
  rfl

/-- Witness for C8: the order committed for customer 1 and book 2 is the
single Pending row appended to the empty Orders table. -/
theorem c8_witness :
    (placeOrderCommitted dbW 1 2 1 "SadaPay").1.orders =
      [{ orderID := 1, customerID := 1, status := "Pending" }] :=
  c8_placement_creates_pending_only dbW 1 2 1 "SadaPay" 1 90000 (by decide)

/-- C4 counterexample: a fully valid order (existing customer 1, one copy
of existing book 2, stock 100, method SadaPay) is answered 201, but the
response body is the fixed message object — it contains neither an
orderId nor a totalAmount field, contradicting the claim. -/
theorem c4_counterexample :
    (postOrders (some dbW) reqValid).2.status = 201 ∧
    (postOrders (some dbW) reqValid).2.body =
      [("message", Json.str "Order placed successfully")] ∧
    (∀ kv ∈ (postOrders (some dbW) reqValid).2.body,
      kv.1 ≠ "orderId" ∧ kv.1 ≠ "totalAmount") := by
  decide

/-- C4 (amended): for every valid POST /orders request (existing customer,
non-empty items, each item naming an existing book with quantity > 0,
valid payment method, sufficient stock) against a well-formed database,
the endpoint responds 201 — but with the fixed body
(message: Order placed successfully), which does not carry the created
order's orderId or totalAmount; the procedure's result set is discarded by
the handler. -/
theorem c4_valid_request_gets_201_message (db : DB) (req : OrderReq) (c : Int)
    (its : List ReqItem) (mm : String)
    (hwf : db.wf)
    (hreqc : req.customerId = some c) (hc0 : c ≠ 0)
    (hcust : db.customers.contains c = true)
    (hreqi : req.items = some its) (hne : its ≠ [])
    (hreqm : req.paymentMethod = some mm) (hmm : mm ∈ validPaymentMethods)
    (hitems : ∀ it ∈ its, ∃ bv qv, it.bookId = some bv ∧ bv ≠ 0 ∧
      it.quantity = some qv ∧ 0 < qv ∧
      db.books.any (fun bk => bk.bookID == bv) = true ∧
      (∀ bk ∈ db.books, bk.bookID = bv → qv ≤ bk.stock)) :
    (postOrders (some db) req).2 =
      ⟨201, [("message", Json.str "Order placed successfully")]⟩ := by
  have hmeth : allowedMethods.contains mm = true :=
    List.elem_eq_true_of_mem ((mem_validPaymentMethods_iff mm).mp hmm)
  have hrun := (runItems_ok_strong its db c mm hcust hmeth hwf (fun it hit => by
    obtain ⟨bv, qv, h1, h2, h3, h4, h5, h6⟩ := hitems it hit
    exact ⟨bv, qv, h1, h3, h4, h5⟩)).1
  rw [postOrders_valid_eq db req c its mm hreqc hc0 hreqi hne hreqm hmm
    (fun it hit => by
      obtain ⟨bv, qv, h1, h2, h3, h4, h5, h6⟩ := hitems it hit
      exact ⟨bv, qv, h1, h2, h3, h4⟩) hrun]

/-- Witness for C4 (amended): the valid request for one copy of book 2 is
answered 201 with the fixed message body. -/
theorem c4_witness :
    (postOrders (some dbW) reqValid).2 =
      ⟨201, [("message", Json.str "Order placed successfully")]⟩ :=
  c4_valid_request_gets_201_message dbW reqValid 1
    [{ bookId := some 2, quantity := some 1 }] "SadaPay"
    (by decide) rfl (by decide) (by decide) rfl (by decide) rfl (by decide)
    (fun it hit => by
      simp at hit
      subst hit
      exact ⟨2, 1, rfl, by decide, rfl, by decide, by decide, by decide⟩)

/-- C9: a request with n valid line items calls PlaceOrder once per item;
the committed Orders table is the old table plus n new Pending rows with
pairwise distinct consecutive ids — never one shared order row — and each
new order carries exactly one line item, one payment and one log entry. -/
theorem c9_one_order_per_item (db : DB) (req : OrderReq) (c : Int)
    (its : List ReqItem) (mm : String)
    (hwf : db.wf)
    (hreqc : req.customerId = some c) (hc0 : c ≠ 0)
    (hcust : db.customers.contains c = true)
    (hreqi : req.items = some its) (hne : its ≠ [])
    (hreqm : req.paymentMethod = some mm) (hmm : mm ∈ validPaymentMethods)
    (hitems : ∀ it ∈ its, ∃ bv qv, it.bookId = some bv ∧ bv ≠ 0 ∧
      it.quantity = some qv ∧ 0 < qv ∧
      db.books.any (fun bk => bk.bookID == bv) = true) :
    (postOrders (some db) req).2.status = 201 ∧
    ((postOrders (some db) req).1.getD db).orders =
      db.orders ++ expectedOrders db.nextOrderID c its.length ∧
    (expectedOrders db.nextOrderID c its.length).length = its.length ∧
    ((expectedOrders db.nextOrderID c its.length).map (fun o => o.orderID)).Nodup ∧
    (∀ i : Nat, i < its.length →
      (detailsOf ((postOrders (some db) req).1.getD db)
        (db.nextOrderID + (i : Int))).length = 1 ∧
      (paymentsOf ((postOrders (some db) req).1.getD db)
        (db.nextOrderID + (i : Int))).length = 1 ∧
      (logsOf ((postOrders (some db) req).1.getD db)
        (db.nextOrderID + (i : Int))).length = 1) := by
  have hmeth : allowedMethods.contains mm = true :=
    List.elem_eq_true_of_mem ((mem_validPaymentMethods_iff mm).mp hmm)
  obtain ⟨hs1, hs2, hs3, hs4, hs5⟩ := runItems_ok_strong its db c mm hcust hmeth hwf
    (fun it hit => by
      obtain ⟨bv, qv, h1, h2, h3, h4, h5⟩ := hitems it hit
      exact ⟨bv, qv, h1, h3, h4, h5⟩)
  rw [postOrders_valid_eq db req c its mm hreqc hc0 hreqi hne hreqm hmm
    (fun it hit => by
      obtain ⟨bv, qv, h1, h2, h3, h4, h5⟩ := hitems it hit
      exact ⟨bv, qv, h1, h2, h3, h4⟩) hs1]
  dsimp only [Option.getD_some]
  exact ⟨rfl, hs2, expectedOrders_length db.nextOrderID c its.length,
    expectedOrders_ids_nodup db.nextOrderID c its.length, hs5⟩

/-- Witness for C9: a two-item request (one copy of book 1, two copies of
book 2) commits two distinct Pending orders with ids 1 and 2. -/
theorem c9_witness :
    (postOrders (some dbW) reqTwoItems).2.status = 201 ∧
    ((postOrders (some dbW) reqTwoItems).1.getD dbW).orders =
      dbW.orders ++ expectedOrders 1 1 2 :=
  have h := c9_one_order_per_item dbW reqTwoItems 1
    [{ bookId := some 1, quantity := some 1 }, { bookId := some 2, quantity := some 2 }]
    "Card" (by decide) rfl (by decide) (by decide) rfl (by decide) rfl (by decide)
    (fun it hit => by
      rcases List.mem_cons.mp hit with rfl | hit2
      · exact ⟨1, 1, rfl, by decide, rfl, by decide, by decide⟩
      · simp at hit2
        subst hit2
        exact ⟨2, 2, rfl, by decide, rfl, by decide, by decide⟩)
  ⟨h.1, h.2.1⟩

end BookStore
